import Mathlib

/-!
Shallow embedding of `lib/vquic/vquic-tls.c` (curl's QUIC TLS adapter over the
OpenSSL, GnuTLS and wolfSSL backends).  Each C function becomes a Lean function;
compile-time backend selection (`#ifdef USE_OPENSSL` / `USE_GNUTLS` /
`USE_WOLFSSL`) becomes an explicit `Backend` parameter; calls into the TLS
library and into other curl translation units become oracle parameters
(environment records) whose results drive the same control flow as the C code;
observable side effects (library calls, `failf` diagnostics, frees) are recorded
in event traces.
-/

set_option autoImplicit false

namespace VquicTls

/-- Relevant CURLcode values returned by the functions of `vquic-tls.c`;
`other` stands for any further code an external callback may return. -/
inductive CURLcode where
  | ok
  | failedInit
  | outOfMemory
  | badFunctionArgument
  | notBuiltIn
  | sslCacertBadfile
  | peerFailedVerification
  | other (code : Nat)
deriving DecidableEq, Repr

/-- Compile-time TLS backend choice (`USE_OPENSSL` / `USE_GNUTLS` / `USE_WOLFSSL`). -/
inductive Backend where
  | openssl
  | gnutls
  | wolfssl
deriving DecidableEq, Repr

/-- Fields of `struct ssl_primary_config` read by `vquic-tls.c`. -/
structure SslPrimaryConfig where
  cipher_list13 : Option String
  curves : Option String
  verifypeer : Bool
  verifyhost : Bool
  CAfile : Option String
  CApath : Option String
deriving DecidableEq, Repr

/-- Fields of `struct ssl_peer` read by `vquic-tls.c`. -/
structure SslPeer where
  sni : Option String
deriving DecidableEq, Repr

/-- Model of `struct curl_tls_ctx`: handles are `Option Nat` (a `none` is a NULL
pointer), covering the per-backend members touched by this file.  The all-empty
value models the zeroed struct (`memset(ctx, 0, sizeof(*ctx))`). -/
structure CurlTlsCtx where
  ssl_ctx : Option Nat
  ssl : Option Nat
  ossl_ssl : Option Nat
  ossl_ssl_ctx : Option Nat
  ossl_x509_store_setup : Bool
  gtls_cred : Option Nat
  gtls_session : Option Nat
  gtls_trust_setup : Bool
deriving DecidableEq, Repr

/-- The zeroed `curl_tls_ctx` (result of `memset(ctx, 0, sizeof(*ctx))`). -/
def emptyTlsCtx : CurlTlsCtx :=
  { ssl_ctx := none, ssl := none, ossl_ssl := none, ossl_ssl_ctx := none,
    ossl_x509_store_setup := false, gtls_cred := none, gtls_session := none,
    gtls_trust_setup := false }

/-! ## Curl_vquic_tls_cleanup -/

/-- Release calls performed by `Curl_vquic_tls_cleanup`. -/
inductive FreeEvent where
  | osslSslFree
  | osslCtxFree
  | gtlsCredFree
  | gtlsDeinit
  | wsslSslFree
  | wsslCtxFree
deriving DecidableEq, Repr

/-- Embedding of `Curl_vquic_tls_cleanup` (vquic-tls.c:257-276): per backend it
frees the session and context handles when present, then zeroes the struct.
Returns the new struct value together with the frees performed. -/
def Curl_vquic_tls_cleanup (b : Backend) (ctx : CurlTlsCtx) :
    CurlTlsCtx × List FreeEvent :=
  let frees :=
    match b with
    | Backend.openssl =>
        (if ctx.ossl_ssl.isSome then [FreeEvent.osslSslFree] else []) ++
        (if ctx.ossl_ssl_ctx.isSome then [FreeEvent.osslCtxFree] else [])
    | Backend.gnutls =>
        (if ctx.gtls_cred.isSome then [FreeEvent.gtlsCredFree] else []) ++
        (if ctx.gtls_session.isSome then [FreeEvent.gtlsDeinit] else [])
    | Backend.wolfssl =>
        (if ctx.ssl.isSome then [FreeEvent.wsslSslFree] else []) ++
        (if ctx.ssl_ctx.isSome then [FreeEvent.wsslCtxFree] else [])
  (emptyTlsCtx, frees)

/-! ## Curl_vquic_tls_verify_peer -/

/-- Results of the external verification routines called by
`Curl_vquic_tls_verify_peer`: `Curl_oss_check_peer_cert` (OpenSSL),
`Curl_gtls_verifyserver` (GnuTLS) and whether
`wolfSSL_check_domain_name` succeeds (wolfSSL). -/
structure VerifyEnv where
  oss_check_peer_cert : CURLcode
  gtls_verifyserver : CURLcode
  check_domain_name_ok : Bool
deriving DecidableEq, Repr

/-- Backend verification work actually invoked by `Curl_vquic_tls_verify_peer`. -/
inductive VerifyEvent where
  | osslCheckPeerCert
  | gtlsVerifyServer
  | wsslCheckDomainName (sni : String)
deriving DecidableEq, Repr

/-- Result of `Curl_vquic_tls_verify_peer`: returned code plus the backend
checks performed. -/
structure VerifyOut where
  result : CURLcode
  events : List VerifyEvent
deriving DecidableEq, Repr

/-- Embedding of `Curl_vquic_tls_verify_peer` (vquic-tls.c:301-333).
`conn_config` is the result of `Curl_ssl_cf_get_primary_config(cf)` (`none`
models a NULL return).  On wolfSSL, with `verifyhost` set, a missing SNI or a
failing `wolfSSL_check_domain_name` yields `CURLE_PEER_FAILED_VERIFICATION`;
the `||` short-circuits, so the domain check only runs when an SNI exists. -/
def Curl_vquic_tls_verify_peer (b : Backend)
    (conn_config : Option SslPrimaryConfig) (peer : SslPeer)
    (env : VerifyEnv) : VerifyOut :=
  match conn_config with
  | none => { result := CURLcode.failedInit, events := [] }
  | some cfg =>
    match b with
    | Backend.openssl =>
        { result := env.oss_check_peer_cert, events := [VerifyEvent.osslCheckPeerCert] }
    | Backend.gnutls =>
        if cfg.verifyhost then
          { result := env.gtls_verifyserver, events := [VerifyEvent.gtlsVerifyServer] }
        else
          { result := CURLcode.ok, events := [] }
    | Backend.wolfssl =>
        if cfg.verifyhost then
          match peer.sni with
          | none => { result := CURLcode.peerFailedVerification, events := [] }
          | some s =>
            if env.check_domain_name_ok then
              { result := CURLcode.ok, events := [VerifyEvent.wsslCheckDomainName s] }
            else
              { result := CURLcode.peerFailedVerification,
                events := [VerifyEvent.wsslCheckDomainName s] }
        else
          { result := CURLcode.ok, events := [] }

/-! ## Curl_vquic_tls_before_recv -/

/-- Oracle results for the external trust-setup routines called by
`Curl_vquic_tls_before_recv`: `Curl_ssl_setup_x509_store` (OpenSSL) and the
trust-store work done inside `Curl_gtls_client_trust_setup` (GnuTLS). -/
structure RecvEnv where
  setup_x509 : CURLcode
  gtls_trust : CURLcode
deriving DecidableEq, Repr

/-- Trust-setup work invoked by `Curl_vquic_tls_before_recv`. -/
inductive RecvEvent where
  | x509StoreSetup
  | gtlsTrustSetup
deriving DecidableEq, Repr

/-- Result of `Curl_vquic_tls_before_recv`. -/
structure RecvOut where
  result : CURLcode
  ctx : CurlTlsCtx
  events : List RecvEvent
deriving DecidableEq, Repr

/-- Modelled from the spec: `Curl_gtls_client_trust_setup` lives in
`lib/vtls/gtls.c`, which is not part of this source snapshot.  The spec
(Trust Setup, 4.3) says the deferred trust work is tracked by an is-ready flag
on the context, so on success the flag is set; the outcome of the real
trust-store work is the oracle `outcome`.  Takes and returns the
`trust_setup` flag. -/
def Curl_gtls_client_trust_setup (outcome : CURLcode) (trust_setup : Bool) :
    CURLcode × Bool :=
  if outcome = CURLcode.ok then (CURLcode.ok, true) else (outcome, trust_setup)

/-- Embedding of `Curl_vquic_tls_before_recv` (vquic-tls.c:278-299): OpenSSL
runs `Curl_ssl_setup_x509_store` once, guarded by `x509_store_setup`; GnuTLS
runs `Curl_gtls_client_trust_setup` guarded by `trust_setup`; wolfSSL does
nothing. -/
def Curl_vquic_tls_before_recv (b : Backend) (env : RecvEnv)
    (ctx : CurlTlsCtx) : RecvOut :=
  match b with
  | Backend.openssl =>
    if ctx.ossl_x509_store_setup then
      { result := CURLcode.ok, ctx := ctx, events := [] }
    else if env.setup_x509 = CURLcode.ok then
      { result := CURLcode.ok,
        ctx := { ctx with ossl_x509_store_setup := true },
        events := [RecvEvent.x509StoreSetup] }
    else
      { result := env.setup_x509, ctx := ctx, events := [RecvEvent.x509StoreSetup] }
  | Backend.gnutls =>
    if ctx.gtls_trust_setup then
      { result := CURLcode.ok, ctx := ctx, events := [] }
    else
      let p := Curl_gtls_client_trust_setup env.gtls_trust ctx.gtls_trust_setup
      { result := p.1, ctx := { ctx with gtls_trust_setup := p.2 },
        events := [RecvEvent.gtlsTrustSetup] }
  | Backend.wolfssl =>
      { result := CURLcode.ok, ctx := ctx, events := [] }

/-! ## curl_wssl_init_ctx -/

/-- The `QUIC_CIPHERS` macro (vquic-tls.c:66-68): default TLS 1.3 cipher list
used when `conn_config->cipher_list13` is NULL. -/
def QUIC_CIPHERS : String :=
  "TLS_AES_128_GCM_SHA256:TLS_AES_256_GCM_SHA384:TLS_CHACHA20_" ++
  "POLY1305_SHA256:TLS_AES_128_CCM_SHA256"

/-- The `QUIC_GROUPS` macro (vquic-tls.c:69): default key-exchange group list
used when `conn_config->curves` is NULL. -/
def QUIC_GROUPS : String := "P-256:P-384:P-521"

/-- Oracle results and compile-time flags driving `curl_wssl_init_ctx`:
`ctx_new` is the `wolfSSL_CTX_new` return (`none` = NULL); `cb_setup` is
`none` when no setup callback was passed, otherwise the callback's return
code; `set_cipher_ok` / `set_groups_ok` model the success of
`wolfSSL_CTX_set_cipher_list` / `wolfSSL_CTX_set1_groups_list` on the given
string; `keylog_enabled` is `Curl_tls_keylog_enabled()`;
`have_secret_callback` is the compile-time `HAVE_SECRET_CALLBACK`;
`curl_ca_fallback` is the compile-time `CURL_CA_FALLBACK`; `load_verify_ok`
is the success of `wolfSSL_CTX_load_verify_locations_ex`; `fsslctx` is
`none` when `data->set.ssl.fsslctx` is NULL, otherwise that application
callback's return code; `err_text` is the `ERR_error_string_n` text for the
pending error. -/
structure WsslEnv where
  ctx_new : Option Nat
  cb_setup : Option CURLcode
  set_cipher_ok : String → Bool
  set_groups_ok : String → Bool
  keylog_enabled : Bool
  have_secret_callback : Bool
  curl_ca_fallback : Bool
  load_verify_ok : Bool
  fsslctx : Option CURLcode
  err_text : String

/-- Library calls and diagnostics performed by `curl_wssl_init_ctx`. -/
inductive CtxEvent where
  | ctxNew
  | cbSetup
  | setDefaultVerifyPaths
  | setCipherList (s : String)
  | setGroupsList (s : String)
  | keylogOpen
  | setKeylogCallback
  | setVerify (peerMode : Bool)
  | loadVerifyLocations (cafile capath : Option String)
  | fsslctxCb
  | failf (msg : String)
  | ctxFree
deriving DecidableEq, Repr

/-- Result of `curl_wssl_init_ctx`: return code, final `ctx->ssl_ctx`, trace. -/
structure CtxOut where
  result : CURLcode
  ssl_ctx : Option Nat
  events : List CtxEvent
deriving DecidableEq, Repr

/-- The `out:` epilogue of `curl_wssl_init_ctx` (vquic-tls.c:187-192):
`if(result && ctx->ssl_ctx) { SSL_CTX_free(ctx->ssl_ctx); ctx->ssl_ctx = NULL; }`. -/
def curl_wssl_out (result : CURLcode) (ssl_ctx : Option Nat)
    (events : List CtxEvent) : CtxOut :=
  if result ≠ CURLcode.ok ∧ ssl_ctx.isSome then
    { result := result, ssl_ctx := none, events := events ++ [CtxEvent.ctxFree] }
  else
    { result := result, ssl_ctx := ssl_ctx, events := events }

/-- The `data->set.ssl.fsslctx` application-callback section of
`curl_wssl_init_ctx` (vquic-tls.c:174-185) followed by `result = CURLE_OK`
and the `out:` epilogue.  `h` is the live `ssl_ctx` handle. -/
def curl_wssl_ctx_app_cb (env : WsslEnv) (h : Nat)
    (evs : List CtxEvent) : CtxOut :=
  match env.fsslctx with
  | none => curl_wssl_out CURLcode.ok (some h) evs
  | some r =>
    let evs := evs ++ [CtxEvent.fsslctxCb]
    if r ≠ CURLcode.ok then
      curl_wssl_out r (some h)
        (evs ++ [CtxEvent.failf "error signaled by ssl ctx callback"])
    else
      curl_wssl_out CURLcode.ok (some h) evs

/-- The verify-peer section of `curl_wssl_init_ctx` (vquic-tls.c:138-172):
with `verifypeer`, set `SSL_VERIFY_PEER` and load CA locations when given
(failure is `CURLE_SSL_CACERT_BADFILE`), else optionally fall back to default
paths under `CURL_CA_FALLBACK`; without `verifypeer`, set `SSL_VERIFY_NONE`. -/
def curl_wssl_ctx_verify (cc : SslPrimaryConfig) (env : WsslEnv) (h : Nat)
    (evs : List CtxEvent) : CtxOut :=
  if cc.verifypeer then
    let evs := evs ++ [CtxEvent.setVerify true]
    if cc.CAfile.isSome ∨ cc.CApath.isSome then
      let evs := evs ++ [CtxEvent.loadVerifyLocations cc.CAfile cc.CApath]
      if env.load_verify_ok then
        curl_wssl_ctx_app_cb env h evs
      else
        curl_wssl_out CURLcode.sslCacertBadfile (some h)
          (evs ++ [CtxEvent.failf
            ("error setting certificate verify locations:" ++
             "  CAfile: " ++ cc.CAfile.getD "none" ++
             " CApath: " ++ cc.CApath.getD "none")])
    else if env.curl_ca_fallback then
      curl_wssl_ctx_app_cb env h (evs ++ [CtxEvent.setDefaultVerifyPaths])
    else
      curl_wssl_ctx_app_cb env h evs
  else
    curl_wssl_ctx_app_cb env h (evs ++ [CtxEvent.setVerify false])

/-- The keylog section of `curl_wssl_init_ctx` (vquic-tls.c:126-136):
`Curl_tls_keylog_open()` unconditionally; when keylog is enabled, register the
callback under `HAVE_SECRET_CALLBACK`, otherwise fail `CURLE_NOT_BUILT_IN`. -/
def curl_wssl_ctx_keylog (cc : SslPrimaryConfig) (env : WsslEnv) (h : Nat)
    (evs : List CtxEvent) : CtxOut :=
  let evs := evs ++ [CtxEvent.keylogOpen]
  if env.keylog_enabled then
    if env.have_secret_callback then
      curl_wssl_ctx_verify cc env h (evs ++ [CtxEvent.setKeylogCallback])
    else
      curl_wssl_out CURLcode.notBuiltIn (some h)
        (evs ++ [CtxEvent.failf "wolfSSL was built without keylog callback"])
  else
    curl_wssl_ctx_verify cc env h evs

/-- The groups section of `curl_wssl_init_ctx` (vquic-tls.c:118-124):
`wolfSSL_CTX_set1_groups_list` on `curves` or `QUIC_GROUPS`; failure is
`CURLE_BAD_FUNCTION_ARGUMENT`. -/
def curl_wssl_ctx_groups (cc : SslPrimaryConfig) (env : WsslEnv) (h : Nat)
    (evs : List CtxEvent) : CtxOut :=
  let gs := cc.curves.getD QUIC_GROUPS
  let evs := evs ++ [CtxEvent.setGroupsList gs]
  if env.set_groups_ok gs then
    curl_wssl_ctx_keylog cc env h evs
  else
    curl_wssl_out CURLcode.badFunctionArgument (some h)
      (evs ++ [CtxEvent.failf "wolfSSL failed to set curves"])

/-- The default-paths and cipher section of `curl_wssl_init_ctx`
(vquic-tls.c:106-116): `wolfSSL_CTX_set_default_verify_paths`, then
`wolfSSL_CTX_set_cipher_list` on `cipher_list13` or `QUIC_CIPHERS`; failure
is `CURLE_BAD_FUNCTION_ARGUMENT` with the backend error text in `failf`. -/
def curl_wssl_ctx_ciphers (cc : SslPrimaryConfig) (env : WsslEnv) (h : Nat)
    (evs : List CtxEvent) : CtxOut :=
  let cs := cc.cipher_list13.getD QUIC_CIPHERS
  let evs := evs ++ [CtxEvent.setDefaultVerifyPaths, CtxEvent.setCipherList cs]
  if env.set_cipher_ok cs then
    curl_wssl_ctx_groups cc env h evs
  else
    curl_wssl_out CURLcode.badFunctionArgument (some h)
      (evs ++ [CtxEvent.failf ("wolfSSL failed to set ciphers: " ++ env.err_text)])

/-- Embedding of `curl_wssl_init_ctx` (vquic-tls.c:79-193).  `conn_config` is
`Curl_ssl_cf_get_primary_config(cf)` (`none` = NULL, giving
`CURLE_FAILED_INIT`); a NULL `wolfSSL_CTX_new` gives `CURLE_OUT_OF_MEMORY`; a
failing setup callback aborts with its code; then the straight-line sections
follow in source order.  `ctx0_ssl_ctx` is the incoming `ctx->ssl_ctx`. -/
def curl_wssl_init_ctx (conn_config : Option SslPrimaryConfig)
    (env : WsslEnv) (ctx0_ssl_ctx : Option Nat) : CtxOut :=
  match conn_config with
  | none => curl_wssl_out CURLcode.failedInit ctx0_ssl_ctx []
  | some cc =>
    match env.ctx_new with
    | none => curl_wssl_out CURLcode.outOfMemory none [CtxEvent.ctxNew]
    | some h =>
      match env.cb_setup with
      | none => curl_wssl_ctx_ciphers cc env h [CtxEvent.ctxNew]
      | some r =>
        if r ≠ CURLcode.ok then
          curl_wssl_out r (some h) [CtxEvent.ctxNew, CtxEvent.cbSetup]
        else
          curl_wssl_ctx_ciphers cc env h [CtxEvent.ctxNew, CtxEvent.cbSetup]

/-! ## curl_wssl_init_ssl -/

/-- Library calls made by `curl_wssl_init_ssl`. -/
inductive SslEvent where
  | sslNew
  | setAppData
  | setConnectState
  | setQuicLegacyCodepoint (enabled : Bool)
  | setAlpnProtos (alpn : String)
  | useSNI (host : String)
deriving DecidableEq, Repr

/-- Result of `curl_wssl_init_ssl`. -/
structure SslOut where
  result : CURLcode
  ssl : Option Nat
  events : List SslEvent
deriving DecidableEq, Repr

/-- Embedding of `curl_wssl_init_ssl` (vquic-tls.c:197-222).  `ssl_new` is the
value returned by `wolfSSL_new(ctx->ssl_ctx)` (`none` models a NULL return on
allocation failure).  Note the C code stores the result without a NULL check
and returns `CURLE_OK` unconditionally. -/
def curl_wssl_init_ssl (ssl_new : Option Nat) (peer : SslPeer)
    (alpn : Option String) : SslOut :=
  { result := CURLcode.ok
    ssl := ssl_new
    events :=
      [SslEvent.sslNew, SslEvent.setAppData, SslEvent.setConnectState,
       SslEvent.setQuicLegacyCodepoint false] ++
      (match alpn with
       | some a => [SslEvent.setAlpnProtos a]
       | none => []) ++
      (match peer.sni with
       | some s => [SslEvent.useSNI s]
       | none => []) }

/-! ## Curl_vquic_tls_init (wolfSSL path) -/

/-- Result of the wolfSSL path of `Curl_vquic_tls_init`. -/
structure InitOut where
  result : CURLcode
  ssl_ctx : Option Nat
  ssl : Option Nat
  ctx_events : List CtxEvent
  ssl_events : List SslEvent
deriving DecidableEq, Repr

/-- Embedding of the wolfSSL branch of `Curl_vquic_tls_init`
(vquic-tls.c:245-250): run `curl_wssl_init_ctx`; on error return it without
touching the session; otherwise run `curl_wssl_init_ssl`.  `ssl_new` is the
`wolfSSL_new` oracle for the session stage; `ctx0` is the incoming struct. -/
def Curl_vquic_tls_init_wssl (conn_config : Option SslPrimaryConfig)
    (env : WsslEnv) (ssl_new : Option Nat) (ctx0 : CurlTlsCtx)
    (peer : SslPeer) (alpn : Option String) : InitOut :=
  let o := curl_wssl_init_ctx conn_config env ctx0.ssl_ctx
  if o.result ≠ CURLcode.ok then
    { result := o.result, ssl_ctx := o.ssl_ctx, ssl := ctx0.ssl,
      ctx_events := o.events, ssl_events := [] }
  else
    let s := curl_wssl_init_ssl ssl_new peer alpn
    { result := s.result, ssl_ctx := o.ssl_ctx, ssl := s.ssl,
      ctx_events := o.events, ssl_events := s.events }

/-! ## Theorems about Curl_vquic_tls_verify_peer -/

/-- C1 (counterexample): with `verifypeer := false` but `verifyhost := true`
and no SNI, `Curl_vquic_tls_verify_peer` on the wolfSSL backend returns
`CURLE_PEER_FAILED_VERIFICATION`, not success — the code gates the check on
`verifyhost`, not on `verifypeer`. -/
theorem verify_peer_disabled_verifypeer_can_fail :
    ((Curl_vquic_tls_verify_peer Backend.wolfssl
        (some { cipher_list13 := none, curves := none, verifypeer := false,
                verifyhost := true, CAfile := none, CApath := none })
        { sni := none }
        { oss_check_peer_cert := CURLcode.ok, gtls_verifyserver := CURLcode.ok,
          check_domain_name_ok := true }).result =
      CURLcode.peerFailedVerification) ∧
    CURLcode.peerFailedVerification ≠ CURLcode.ok :=
  ⟨rfl, by decide⟩

/-- C1 (amended): if host verification (`verifyhost`) is disabled in the
configuration, `Curl_vquic_tls_verify_peer` returns success for every peer
and every backend-check outcome, on the wolfSSL and GnuTLS backends (given
the primary configuration is obtainable). -/
theorem verify_peer_host_check_disabled_ok (cc : SslPrimaryConfig)
    (peer : SslPeer) (env : VerifyEnv) (hhost : cc.verifyhost = false) :
    (Curl_vquic_tls_verify_peer Backend.wolfssl (some cc) peer env).result =
      CURLcode.ok ∧
    (Curl_vquic_tls_verify_peer Backend.gnutls (some cc) peer env).result =
      CURLcode.ok := by
  constructor <;> simp [Curl_vquic_tls_verify_peer, hhost]

/-- C1 (witness): the amended theorem at a concrete configuration with
`verifyhost := false`. -/
theorem verify_peer_host_check_disabled_ok_witness :
    (Curl_vquic_tls_verify_peer Backend.wolfssl
        (some { cipher_list13 := none, curves := none, verifypeer := false,
                verifyhost := false, CAfile := none, CApath := none })
        { sni := none }
        { oss_check_peer_cert := CURLcode.ok, gtls_verifyserver := CURLcode.ok,
          check_domain_name_ok := false }).result = CURLcode.ok ∧
    (Curl_vquic_tls_verify_peer Backend.gnutls
        (some { cipher_list13 := none, curves := none, verifypeer := false,
                verifyhost := false, CAfile := none, CApath := none })
        { sni := none }
        { oss_check_peer_cert := CURLcode.ok, gtls_verifyserver := CURLcode.ok,
          check_domain_name_ok := false }).result = CURLcode.ok :=
  verify_peer_host_check_disabled_ok _ _ _ rfl

/-- C2: with host verification enabled and no SNI set on the peer,
`Curl_vquic_tls_verify_peer` (wolfSSL backend) deterministically returns
`CURLE_PEER_FAILED_VERIFICATION` (the spec's `NoSniForVerification`) without
invoking any backend check, for every oracle outcome. -/
theorem verify_peer_missing_sni_fails (cc : SslPrimaryConfig) (peer : SslPeer)
    (env : VerifyEnv) (hhost : cc.verifyhost = true) (hsni : peer.sni = none) :
    Curl_vquic_tls_verify_peer Backend.wolfssl (some cc) peer env =
      { result := CURLcode.peerFailedVerification, events := [] } := by
  simp [Curl_vquic_tls_verify_peer, hhost, hsni]

/-- C2 (witness): the theorem at a concrete configuration and peer. -/
theorem verify_peer_missing_sni_fails_witness :
    Curl_vquic_tls_verify_peer Backend.wolfssl
        (some { cipher_list13 := none, curves := none, verifypeer := true,
                verifyhost := true, CAfile := none, CApath := none })
        { sni := none }
        { oss_check_peer_cert := CURLcode.ok, gtls_verifyserver := CURLcode.ok,
          check_domain_name_ok := true } =
      { result := CURLcode.peerFailedVerification, events := [] } :=
  verify_peer_missing_sni_fails _ _ _ rfl rfl

/-- C9: when the primary TLS configuration cannot be obtained (`NULL` from
`Curl_ssl_cf_get_primary_config`), `Curl_vquic_tls_verify_peer` returns
`CURLE_FAILED_INIT` with no backend hostname, pin or chain check performed,
for every backend and peer. -/
theorem verify_peer_no_conn_config_failed_init (b : Backend) (peer : SslPeer)
    (env : VerifyEnv) :
    Curl_vquic_tls_verify_peer b none peer env =
      { result := CURLcode.failedInit, events := [] } := rfl

/-! ## Theorems about Curl_vquic_tls_cleanup -/

/-- C4: `Curl_vquic_tls_cleanup` resets the struct to the zeroed state, a
second cleanup right after (and a cleanup of a freshly empty struct) is a
no-op performing no frees, and on the wolfSSL backend the session/context
handles are freed exactly when present. -/
theorem cleanup_idempotent_and_resets (b : Backend) (ctx : CurlTlsCtx) :
    (Curl_vquic_tls_cleanup b ctx).1 = emptyTlsCtx ∧
    Curl_vquic_tls_cleanup b (Curl_vquic_tls_cleanup b ctx).1 =
      (emptyTlsCtx, []) ∧
    Curl_vquic_tls_cleanup b emptyTlsCtx = (emptyTlsCtx, []) ∧
    (FreeEvent.wsslSslFree ∈ (Curl_vquic_tls_cleanup Backend.wolfssl ctx).2 ↔
      ctx.ssl.isSome = true) ∧
    (FreeEvent.wsslCtxFree ∈ (Curl_vquic_tls_cleanup Backend.wolfssl ctx).2 ↔
      ctx.ssl_ctx.isSome = true) := by
  refine ⟨rfl, ?_, ?_, ?_, ?_⟩
  · cases b <;> rfl
  · cases b <;> rfl
  · by_cases hs : ctx.ssl.isSome <;> by_cases hc : ctx.ssl_ctx.isSome <;>
      simp [Curl_vquic_tls_cleanup, hs, hc]
  · by_cases hs : ctx.ssl.isSome <;> by_cases hc : ctx.ssl_ctx.isSome <;>
      simp [Curl_vquic_tls_cleanup, hs, hc]

/-! ## Theorems about curl_wssl_init_ssl -/

/-- C3 (code evaluated at the failing input): when `wolfSSL_new` returns NULL
(allocation failure), `curl_wssl_init_ssl` still reports `CURLE_OK` while
leaving `ctx->ssl` NULL — the code never returns `CURLE_OUT_OF_MEMORY` here,
contradicting the spec's `OutOfMemory` contract for `init_session`. -/
theorem init_ssl_null_session_reports_ok :
    (curl_wssl_init_ssl none { sni := none } none).result = CURLcode.ok ∧
    (curl_wssl_init_ssl none { sni := none } none).ssl = none :=
  ⟨rfl, rfl⟩

/-! ## Theorems about Curl_vquic_tls_before_recv -/

/-- C8: once a call to `Curl_vquic_tls_before_recv` has returned success, any
subsequent call on the resulting context performs no trust-setup work and
returns success, leaving the context unchanged — the real work happens at
most once per context, guarded by the per-context is-ready flag. -/
theorem before_recv_trust_setup_once (b : Backend) (env env2 : RecvEnv)
    (ctx : CurlTlsCtx)
    (hok : (Curl_vquic_tls_before_recv b env ctx).result = CURLcode.ok) :
    Curl_vquic_tls_before_recv b env2 (Curl_vquic_tls_before_recv b env ctx).ctx =
      { result := CURLcode.ok,
        ctx := (Curl_vquic_tls_before_recv b env ctx).ctx,
        events := [] } := by
  cases b
  · by_cases hf : ctx.ossl_x509_store_setup
    · simp [Curl_vquic_tls_before_recv, hf]
    · by_cases hr : env.setup_x509 = CURLcode.ok
      · simp [Curl_vquic_tls_before_recv, hf, hr]
      · simp [Curl_vquic_tls_before_recv, hf, hr] at hok
  · by_cases hf : ctx.gtls_trust_setup
    · simp [Curl_vquic_tls_before_recv, hf]
    · by_cases hr : env.gtls_trust = CURLcode.ok
      · simp [Curl_vquic_tls_before_recv, Curl_gtls_client_trust_setup, hf, hr]
      · simp [Curl_vquic_tls_before_recv, Curl_gtls_client_trust_setup,
              hf, hr] at hok
  · rfl

/-- C8 (witness): on the OpenSSL backend starting from the zeroed context
with a succeeding store setup, the follow-up call is a no-op. -/
theorem before_recv_trust_setup_once_witness :
    Curl_vquic_tls_before_recv Backend.openssl
        { setup_x509 := CURLcode.ok, gtls_trust := CURLcode.ok }
        (Curl_vquic_tls_before_recv Backend.openssl
          { setup_x509 := CURLcode.ok, gtls_trust := CURLcode.ok }
          emptyTlsCtx).ctx =
      { result := CURLcode.ok,
        ctx := (Curl_vquic_tls_before_recv Backend.openssl
          { setup_x509 := CURLcode.ok, gtls_trust := CURLcode.ok }
          emptyTlsCtx).ctx,
        events := [] } :=
  before_recv_trust_setup_once Backend.openssl _ _ emptyTlsCtx (by decide)

/-- C10: on the wolfSSL backend, `Curl_vquic_tls_before_recv` performs no
trust-setup work and returns success, leaving the context unchanged, from
every state and for every oracle outcome. -/
theorem before_recv_wolfssl_noop (env : RecvEnv) (ctx : CurlTlsCtx) :
    Curl_vquic_tls_before_recv Backend.wolfssl env ctx =
      { result := CURLcode.ok, ctx := ctx, events := [] } := rfl

/-! ## Lemmas about the out-epilogue and the init_ctx stages -/

theorem curl_wssl_out_result (r : CURLcode) (s : Option Nat)
    (evs : List CtxEvent) : (curl_wssl_out r s evs).result = r := by
  unfold curl_wssl_out
  split <;> rfl

theorem curl_wssl_out_events_app (r : CURLcode) (s : Option Nat)
    (evs : List CtxEvent) :
    ∃ d, (curl_wssl_out r s evs).events = evs ++ d := by
  unfold curl_wssl_out
  split
  · exact ⟨[CtxEvent.ctxFree], rfl⟩
  · exact ⟨[], by simp⟩

theorem curl_wssl_out_err_ssl_ctx (r : CURLcode) (s : Option Nat)
    (evs : List CtxEvent) (hr : r ≠ CURLcode.ok) :
    (curl_wssl_out r s evs).ssl_ctx = none := by
  unfold curl_wssl_out
  split
  · rfl
  · rename_i hcond
    cases s with
    | none => rfl
    | some x => exact absurd ⟨hr, rfl⟩ hcond

theorem curl_wssl_out_err_free (r : CURLcode) (h : Nat)
    (evs : List CtxEvent) (hr : r ≠ CURLcode.ok) :
    CtxEvent.ctxFree ∈ (curl_wssl_out r (some h) evs).events := by
  unfold curl_wssl_out
  rw [if_pos ⟨hr, rfl⟩]
  simp

theorem curl_wssl_ctx_app_cb_err (env : WsslEnv) (h : Nat)
    (evs : List CtxEvent)
    (herr : (curl_wssl_ctx_app_cb env h evs).result ≠ CURLcode.ok) :
    (curl_wssl_ctx_app_cb env h evs).ssl_ctx = none ∧
    CtxEvent.ctxFree ∈ (curl_wssl_ctx_app_cb env h evs).events := by
  revert herr
  unfold curl_wssl_ctx_app_cb
  split
  · intro herr
    exact absurd (curl_wssl_out_result _ _ _) herr
  · split
    · rename_i hne
      intro _
      exact ⟨curl_wssl_out_err_ssl_ctx _ _ _ hne, curl_wssl_out_err_free _ _ _ hne⟩
    · intro herr
      exact absurd (curl_wssl_out_result _ _ _) herr

theorem curl_wssl_ctx_verify_err (cc : SslPrimaryConfig) (env : WsslEnv)
    (h : Nat) (evs : List CtxEvent)
    (herr : (curl_wssl_ctx_verify cc env h evs).result ≠ CURLcode.ok) :
    (curl_wssl_ctx_verify cc env h evs).ssl_ctx = none ∧
    CtxEvent.ctxFree ∈ (curl_wssl_ctx_verify cc env h evs).events := by
  revert herr
  unfold curl_wssl_ctx_verify
  split
  · split
    · split
      · intro herr
        exact curl_wssl_ctx_app_cb_err env h _ herr
      · intro _
        exact ⟨curl_wssl_out_err_ssl_ctx _ _ _ (by decide),
               curl_wssl_out_err_free _ _ _ (by decide)⟩
    · split
      · intro herr
        exact curl_wssl_ctx_app_cb_err env h _ herr
      · intro herr
        exact curl_wssl_ctx_app_cb_err env h _ herr
  · intro herr
    exact curl_wssl_ctx_app_cb_err env h _ herr

theorem curl_wssl_ctx_keylog_err (cc : SslPrimaryConfig) (env : WsslEnv)
    (h : Nat) (evs : List CtxEvent)
    (herr : (curl_wssl_ctx_keylog cc env h evs).result ≠ CURLcode.ok) :
    (curl_wssl_ctx_keylog cc env h evs).ssl_ctx = none ∧
    CtxEvent.ctxFree ∈ (curl_wssl_ctx_keylog cc env h evs).events := by
  revert herr
  unfold curl_wssl_ctx_keylog
  split
  · split
    · intro herr
      exact curl_wssl_ctx_verify_err cc env h _ herr
    · intro _
      exact ⟨curl_wssl_out_err_ssl_ctx _ _ _ (by decide),
             curl_wssl_out_err_free _ _ _ (by decide)⟩
  · intro herr
    exact curl_wssl_ctx_verify_err cc env h _ herr

theorem curl_wssl_ctx_groups_err (cc : SslPrimaryConfig) (env : WsslEnv)
    (h : Nat) (evs : List CtxEvent)
    (herr : (curl_wssl_ctx_groups cc env h evs).result ≠ CURLcode.ok) :
    (curl_wssl_ctx_groups cc env h evs).ssl_ctx = none ∧
    CtxEvent.ctxFree ∈ (curl_wssl_ctx_groups cc env h evs).events := by
  revert herr
  simp only [curl_wssl_ctx_groups]
  split
  · intro herr
    exact curl_wssl_ctx_keylog_err cc env h _ herr
  · intro _
    exact ⟨curl_wssl_out_err_ssl_ctx _ _ _ (by decide),
           curl_wssl_out_err_free _ _ _ (by decide)⟩

theorem curl_wssl_ctx_ciphers_err (cc : SslPrimaryConfig) (env : WsslEnv)
    (h : Nat) (evs : List CtxEvent)
    (herr : (curl_wssl_ctx_ciphers cc env h evs).result ≠ CURLcode.ok) :
    (curl_wssl_ctx_ciphers cc env h evs).ssl_ctx = none ∧
    CtxEvent.ctxFree ∈ (curl_wssl_ctx_ciphers cc env h evs).events := by
  revert herr
  simp only [curl_wssl_ctx_ciphers]
  split
  · intro herr
    exact curl_wssl_ctx_groups_err cc env h _ herr
  · intro _
    exact ⟨curl_wssl_out_err_ssl_ctx _ _ _ (by decide),
           curl_wssl_out_err_free _ _ _ (by decide)⟩

/-- C5: an error return from `curl_wssl_init_ctx` always leaves
`ctx->ssl_ctx` NULL, and whenever a backend context had actually been
allocated (`wolfSSL_CTX_new` returned non-NULL), the error path frees it
(`SSL_CTX_free` appears in the trace) before returning.  Covers every failure
path: missing config, allocation, setup callback, cipher list, group list,
keylog support, CA load, and the application ssl-ctx callback. -/
theorem wssl_init_ctx_error_leaves_no_context
    (conn_config : Option SslPrimaryConfig) (env : WsslEnv)
    (ctx0_ssl_ctx : Option Nat)
    (herr : (curl_wssl_init_ctx conn_config env ctx0_ssl_ctx).result ≠
      CURLcode.ok) :
    (curl_wssl_init_ctx conn_config env ctx0_ssl_ctx).ssl_ctx = none ∧
    (∀ cc h, conn_config = some cc → env.ctx_new = some h →
      CtxEvent.ctxFree ∈
        (curl_wssl_init_ctx conn_config env ctx0_ssl_ctx).events) := by
  revert herr
  unfold curl_wssl_init_ctx
  split
  · intro _
    refine ⟨curl_wssl_out_err_ssl_ctx _ _ _ (by decide), ?_⟩
    intro cc h hcfg _
    exact absurd hcfg (by simp)
  · rename_i cc
    split
    · rename_i hnone
      intro _
      refine ⟨curl_wssl_out_err_ssl_ctx _ _ _ (by decide), ?_⟩
      intro cc' h' _ hnew
      rw [hnone] at hnew
      exact absurd hnew (by simp)
    · rename_i h hsome
      split
      · intro herr
        obtain ⟨h1, h2⟩ := curl_wssl_ctx_ciphers_err cc env h _ herr
        exact ⟨h1, fun _ _ _ _ => h2⟩
      · split
        · rename_i hne
          intro _
          refine ⟨curl_wssl_out_err_ssl_ctx _ _ _ hne, ?_⟩
          intro _ _ _ _
          exact curl_wssl_out_err_free _ _ _ hne
        · intro herr
          obtain ⟨h1, h2⟩ := curl_wssl_ctx_ciphers_err cc env h _ herr
          exact ⟨h1, fun _ _ _ _ => h2⟩

/-- C5 (witness): a concrete run whose cipher-list call fails leaves no
context handle and shows the free in the trace. -/
theorem wssl_init_ctx_error_leaves_no_context_witness :
    (curl_wssl_init_ctx
        (some { cipher_list13 := none, curves := none, verifypeer := true,
                verifyhost := true, CAfile := none, CApath := none })
        { ctx_new := some 7, cb_setup := none,
          set_cipher_ok := fun _ => false, set_groups_ok := fun _ => true,
          keylog_enabled := false, have_secret_callback := true,
          curl_ca_fallback := false, load_verify_ok := true,
          fsslctx := none, err_text := "bad cipher" }
        none).ssl_ctx = none ∧
    CtxEvent.ctxFree ∈
      (curl_wssl_init_ctx
        (some { cipher_list13 := none, curves := none, verifypeer := true,
                verifyhost := true, CAfile := none, CApath := none })
        { ctx_new := some 7, cb_setup := none,
          set_cipher_ok := fun _ => false, set_groups_ok := fun _ => true,
          keylog_enabled := false, have_secret_callback := true,
          curl_ca_fallback := false, load_verify_ok := true,
          fsslctx := none, err_text := "bad cipher" }
        none).events := by
  have h := wssl_init_ctx_error_leaves_no_context
    (some { cipher_list13 := none, curves := none, verifypeer := true,
            verifyhost := true, CAfile := none, CApath := none })
    { ctx_new := some 7, cb_setup := none,
      set_cipher_ok := fun _ => false, set_groups_ok := fun _ => true,
      keylog_enabled := false, have_secret_callback := true,
      curl_ca_fallback := false, load_verify_ok := true,
      fsslctx := none, err_text := "bad cipher" }
    none (by decide)
  exact ⟨h.1, h.2 _ 7 rfl rfl⟩

theorem events_app_trans (l l1 evs : List CtxEvent)
    (h1 : ∃ d, l = l1 ++ d) (h2 : ∃ d, l1 = evs ++ d) :
    ∃ d, l = evs ++ d := by
  obtain ⟨d1, h1⟩ := h1
  obtain ⟨d2, h2⟩ := h2
  exact ⟨d2 ++ d1, by rw [h1, h2, List.append_assoc]⟩

theorem append_one_ext (evs a : List CtxEvent) : ∃ d, evs ++ a = evs ++ d :=
  ⟨a, rfl⟩

theorem append_two_ext (evs a b : List CtxEvent) :
    ∃ d, evs ++ a ++ b = evs ++ d :=
  ⟨a ++ b, by rw [List.append_assoc]⟩

theorem append_three_ext (evs a b c : List CtxEvent) :
    ∃ d, evs ++ a ++ b ++ c = evs ++ d :=
  ⟨a ++ b ++ c, by simp [List.append_assoc]⟩

theorem curl_wssl_ctx_app_cb_events (env : WsslEnv) (h : Nat)
    (evs : List CtxEvent) :
    ∃ d, (curl_wssl_ctx_app_cb env h evs).events = evs ++ d := by
  unfold curl_wssl_ctx_app_cb
  split
  · exact curl_wssl_out_events_app _ _ _
  · split
    · exact events_app_trans _ _ _ (curl_wssl_out_events_app _ _ _)
        (append_two_ext _ _ _)
    · exact events_app_trans _ _ _ (curl_wssl_out_events_app _ _ _)
        (append_one_ext _ _)

theorem curl_wssl_ctx_verify_events (cc : SslPrimaryConfig) (env : WsslEnv)
    (h : Nat) (evs : List CtxEvent) :
    ∃ d, (curl_wssl_ctx_verify cc env h evs).events = evs ++ d := by
  unfold curl_wssl_ctx_verify
  split
  · split
    · split
      · exact events_app_trans _ _ _ (curl_wssl_ctx_app_cb_events _ _ _)
          (append_two_ext _ _ _)
      · exact events_app_trans _ _ _ (curl_wssl_out_events_app _ _ _)
          (append_three_ext _ _ _ _)
    · split
      · exact events_app_trans _ _ _ (curl_wssl_ctx_app_cb_events _ _ _)
          (append_two_ext _ _ _)
      · exact events_app_trans _ _ _ (curl_wssl_ctx_app_cb_events _ _ _)
          (append_one_ext _ _)
  · exact events_app_trans _ _ _ (curl_wssl_ctx_app_cb_events _ _ _)
      (append_one_ext _ _)

theorem curl_wssl_ctx_keylog_events (cc : SslPrimaryConfig) (env : WsslEnv)
    (h : Nat) (evs : List CtxEvent) :
    ∃ d, (curl_wssl_ctx_keylog cc env h evs).events = evs ++ d := by
  unfold curl_wssl_ctx_keylog
  split
  · split
    · exact events_app_trans _ _ _ (curl_wssl_ctx_verify_events _ _ _ _)
        (append_two_ext _ _ _)
    · exact events_app_trans _ _ _ (curl_wssl_out_events_app _ _ _)
        (append_two_ext _ _ _)
  · exact events_app_trans _ _ _ (curl_wssl_ctx_verify_events _ _ _ _)
      (append_one_ext _ _)

theorem curl_wssl_ctx_groups_events (cc : SslPrimaryConfig) (env : WsslEnv)
    (h : Nat) (evs : List CtxEvent) :
    ∃ d, (curl_wssl_ctx_groups cc env h evs).events = evs ++ d := by
  simp only [curl_wssl_ctx_groups]
  split
  · exact events_app_trans _ _ _ (curl_wssl_ctx_keylog_events _ _ _ _)
      (append_one_ext _ _)
  · exact events_app_trans _ _ _ (curl_wssl_out_events_app _ _ _)
      (append_two_ext _ _ _)

theorem curl_wssl_ctx_ciphers_spec (cc : SslPrimaryConfig) (env : WsslEnv)
    (h : Nat) (evs : List CtxEvent) :
    (∃ d, (curl_wssl_ctx_ciphers cc env h evs).events =
      (evs ++ [CtxEvent.setDefaultVerifyPaths,
               CtxEvent.setCipherList (cc.cipher_list13.getD QUIC_CIPHERS)])
        ++ d) ∧
    (env.set_cipher_ok (cc.cipher_list13.getD QUIC_CIPHERS) = false →
      (curl_wssl_ctx_ciphers cc env h evs).result =
        CURLcode.badFunctionArgument ∧
      CtxEvent.failf ("wolfSSL failed to set ciphers: " ++ env.err_text) ∈
        (curl_wssl_ctx_ciphers cc env h evs).events) := by
  simp only [curl_wssl_ctx_ciphers]
  split
  · rename_i hc
    refine ⟨curl_wssl_ctx_groups_events _ _ _ _, ?_⟩
    intro hfalse
    rw [hc] at hfalse
    exact Bool.noConfusion hfalse
  · constructor
    · exact events_app_trans _ _ _ (curl_wssl_out_events_app _ _ _)
        (append_one_ext _ _)
    · intro _
      refine ⟨curl_wssl_out_result _ _ _, ?_⟩
      obtain ⟨d, hd⟩ := curl_wssl_out_events_app CURLcode.badFunctionArgument
        (some h)
        ((evs ++ [CtxEvent.setDefaultVerifyPaths,
          CtxEvent.setCipherList (cc.cipher_list13.getD QUIC_CIPHERS)]) ++
          [CtxEvent.failf ("wolfSSL failed to set ciphers: " ++ env.err_text)])
      rw [hd]
      simp

/-- C6: under any configuration, once `curl_wssl_init_ctx` has passed the
allocation and setup-callback steps, the trace shows
`wolfSSL_CTX_set_default_verify_paths` immediately followed by
`wolfSSL_CTX_set_cipher_list` on `cipher_list13` when present and otherwise on
`QUIC_CIPHERS` (a fixed list of exactly four TLS 1.3 suites); if setting the
cipher list fails, the function returns `CURLE_BAD_FUNCTION_ARGUMENT` and the
`failf` diagnostic carries the backend's native error text. -/
theorem wssl_ctx_default_paths_then_ciphers (cc : SslPrimaryConfig)
    (env : WsslEnv) (h : Nat) (ctx0_ssl_ctx : Option Nat)
    (hnew : env.ctx_new = some h)
    (hcb : env.cb_setup = none ∨ env.cb_setup = some CURLcode.ok) :
    (∃ pre post,
      (curl_wssl_init_ctx (some cc) env ctx0_ssl_ctx).events =
        pre ++ [CtxEvent.setDefaultVerifyPaths,
                CtxEvent.setCipherList (cc.cipher_list13.getD QUIC_CIPHERS)]
          ++ post) ∧
    QUIC_CIPHERS =
      "TLS_AES_128_GCM_SHA256" ++ ":" ++ "TLS_AES_256_GCM_SHA384" ++ ":" ++
      "TLS_CHACHA20_POLY1305_SHA256" ++ ":" ++ "TLS_AES_128_CCM_SHA256" ∧
    (env.set_cipher_ok (cc.cipher_list13.getD QUIC_CIPHERS) = false →
      (curl_wssl_init_ctx (some cc) env ctx0_ssl_ctx).result =
        CURLcode.badFunctionArgument ∧
      CtxEvent.failf ("wolfSSL failed to set ciphers: " ++ env.err_text) ∈
        (curl_wssl_init_ctx (some cc) env ctx0_ssl_ctx).events) := by
  have hred : curl_wssl_init_ctx (some cc) env ctx0_ssl_ctx =
      curl_wssl_ctx_ciphers cc env h [CtxEvent.ctxNew] ∨
      curl_wssl_init_ctx (some cc) env ctx0_ssl_ctx =
      curl_wssl_ctx_ciphers cc env h [CtxEvent.ctxNew, CtxEvent.cbSetup] := by
    rcases hcb with hcb | hcb
    · left
      simp [curl_wssl_init_ctx, hnew, hcb]
    · right
      simp [curl_wssl_init_ctx, hnew, hcb]
  refine ⟨?_, by decide, ?_⟩
  · rcases hred with hred | hred <;> rw [hred]
    · obtain ⟨d, hd⟩ := (curl_wssl_ctx_ciphers_spec cc env h [CtxEvent.ctxNew]).1
      exact ⟨_, d, hd⟩
    · obtain ⟨d, hd⟩ := (curl_wssl_ctx_ciphers_spec cc env h
        [CtxEvent.ctxNew, CtxEvent.cbSetup]).1
      exact ⟨_, d, hd⟩
  · intro hcf
    rcases hred with hred | hred <;> rw [hred]
    · exact (curl_wssl_ctx_ciphers_spec cc env h [CtxEvent.ctxNew]).2 hcf
    · exact (curl_wssl_ctx_ciphers_spec cc env h
        [CtxEvent.ctxNew, CtxEvent.cbSetup]).2 hcf

/-- C6 (witness): the theorem at a concrete configuration without
`cipher_list13` and an environment whose cipher-list call fails. -/
theorem wssl_ctx_default_paths_then_ciphers_witness :
    (∃ pre post,
      (curl_wssl_init_ctx
        (some { cipher_list13 := none, curves := none, verifypeer := false,
                verifyhost := false, CAfile := none, CApath := none })
        { ctx_new := some 5, cb_setup := none,
          set_cipher_ok := fun _ => false, set_groups_ok := fun _ => true,
          keylog_enabled := false, have_secret_callback := true,
          curl_ca_fallback := false, load_verify_ok := true,
          fsslctx := none, err_text := "no such cipher" }
        none).events =
        pre ++ [CtxEvent.setDefaultVerifyPaths,
                CtxEvent.setCipherList QUIC_CIPHERS] ++ post) ∧
    QUIC_CIPHERS =
      "TLS_AES_128_GCM_SHA256" ++ ":" ++ "TLS_AES_256_GCM_SHA384" ++ ":" ++
      "TLS_CHACHA20_POLY1305_SHA256" ++ ":" ++ "TLS_AES_128_CCM_SHA256" ∧
    ((fun (_ : String) => false) QUIC_CIPHERS = false →
      (curl_wssl_init_ctx
        (some { cipher_list13 := none, curves := none, verifypeer := false,
                verifyhost := false, CAfile := none, CApath := none })
        { ctx_new := some 5, cb_setup := none,
          set_cipher_ok := fun _ => false, set_groups_ok := fun _ => true,
          keylog_enabled := false, have_secret_callback := true,
          curl_ca_fallback := false, load_verify_ok := true,
          fsslctx := none, err_text := "no such cipher" }
        none).result = CURLcode.badFunctionArgument ∧
      CtxEvent.failf ("wolfSSL failed to set ciphers: " ++ "no such cipher") ∈
        (curl_wssl_init_ctx
          (some { cipher_list13 := none, curves := none, verifypeer := false,
                  verifyhost := false, CAfile := none, CApath := none })
          { ctx_new := some 5, cb_setup := none,
            set_cipher_ok := fun _ => false, set_groups_ok := fun _ => true,
            keylog_enabled := false, have_secret_callback := true,
            curl_ca_fallback := false, load_verify_ok := true,
            fsslctx := none, err_text := "no such cipher" }
          none).events) :=
  wssl_ctx_default_paths_then_ciphers _ _ 5 none rfl (Or.inl rfl)

/-- C7: with keylog export enabled (`Curl_tls_keylog_enabled`) on a wolfSSL
build lacking `HAVE_SECRET_CALLBACK`, context construction aborts with
`CURLE_NOT_BUILT_IN`, frees the context, and `Curl_vquic_tls_init` never
reaches `curl_wssl_init_ssl`: no session is created. -/
theorem wssl_keylog_unsupported_aborts (cc : SslPrimaryConfig)
    (env : WsslEnv) (ssl_new : Option Nat) (ctx0 : CurlTlsCtx)
    (peer : SslPeer) (alpn : Option String) (h : Nat)
    (hnew : env.ctx_new = some h)
    (hcb : env.cb_setup = none ∨ env.cb_setup = some CURLcode.ok)
    (hciph : env.set_cipher_ok (cc.cipher_list13.getD QUIC_CIPHERS) = true)
    (hgrp : env.set_groups_ok (cc.curves.getD QUIC_GROUPS) = true)
    (hkl : env.keylog_enabled = true)
    (hsc : env.have_secret_callback = false) :
    (Curl_vquic_tls_init_wssl (some cc) env ssl_new ctx0 peer alpn).result =
      CURLcode.notBuiltIn ∧
    (Curl_vquic_tls_init_wssl (some cc) env ssl_new ctx0 peer alpn).ssl_ctx =
      none ∧
    (Curl_vquic_tls_init_wssl (some cc) env ssl_new ctx0 peer alpn).ssl =
      ctx0.ssl ∧
    (Curl_vquic_tls_init_wssl (some cc) env ssl_new ctx0 peer alpn).ssl_events
      = [] := by
  have hres : (curl_wssl_init_ctx (some cc) env ctx0.ssl_ctx).result =
      CURLcode.notBuiltIn ∧
      (curl_wssl_init_ctx (some cc) env ctx0.ssl_ctx).ssl_ctx = none := by
    have hred : curl_wssl_init_ctx (some cc) env ctx0.ssl_ctx =
        curl_wssl_ctx_ciphers cc env h [CtxEvent.ctxNew] ∨
        curl_wssl_init_ctx (some cc) env ctx0.ssl_ctx =
        curl_wssl_ctx_ciphers cc env h [CtxEvent.ctxNew, CtxEvent.cbSetup] := by
      rcases hcb with hcb | hcb
      · left
        simp [curl_wssl_init_ctx, hnew, hcb]
      · right
        simp [curl_wssl_init_ctx, hnew, hcb]
    rcases hred with hred | hred <;> rw [hred] <;>
      simp [curl_wssl_ctx_ciphers, curl_wssl_ctx_groups, curl_wssl_ctx_keylog,
            curl_wssl_out, hciph, hgrp, hkl, hsc]
  simp [Curl_vquic_tls_init_wssl, hres.1, hres.2]

/-- C7 (witness): a concrete keylog-enabled run on a build without the
secret callback. -/
theorem wssl_keylog_unsupported_aborts_witness :
    (Curl_vquic_tls_init_wssl
        (some { cipher_list13 := none, curves := none, verifypeer := false,
                verifyhost := false, CAfile := none, CApath := none })
        { ctx_new := some 3, cb_setup := none,
          set_cipher_ok := fun _ => true, set_groups_ok := fun _ => true,
          keylog_enabled := true, have_secret_callback := false,
          curl_ca_fallback := false, load_verify_ok := true,
          fsslctx := none, err_text := "" }
        (some 9) emptyTlsCtx { sni := none } none).result =
      CURLcode.notBuiltIn ∧
    (Curl_vquic_tls_init_wssl
        (some { cipher_list13 := none, curves := none, verifypeer := false,
                verifyhost := false, CAfile := none, CApath := none })
        { ctx_new := some 3, cb_setup := none,
          set_cipher_ok := fun _ => true, set_groups_ok := fun _ => true,
          keylog_enabled := true, have_secret_callback := false,
          curl_ca_fallback := false, load_verify_ok := true,
          fsslctx := none, err_text := "" }
        (some 9) emptyTlsCtx { sni := none } none).ssl_ctx = none ∧
    (Curl_vquic_tls_init_wssl
        (some { cipher_list13 := none, curves := none, verifypeer := false,
                verifyhost := false, CAfile := none, CApath := none })
        { ctx_new := some 3, cb_setup := none,
          set_cipher_ok := fun _ => true, set_groups_ok := fun _ => true,
          keylog_enabled := true, have_secret_callback := false,
          curl_ca_fallback := false, load_verify_ok := true,
          fsslctx := none, err_text := "" }
        (some 9) emptyTlsCtx { sni := none } none).ssl = emptyTlsCtx.ssl ∧
    (Curl_vquic_tls_init_wssl
        (some { cipher_list13 := none, curves := none, verifypeer := false,
                verifyhost := false, CAfile := none, CApath := none })
        { ctx_new := some 3, cb_setup := none,
          set_cipher_ok := fun _ => true, set_groups_ok := fun _ => true,
          keylog_enabled := true, have_secret_callback := false,
          curl_ca_fallback := false, load_verify_ok := true,
          fsslctx := none, err_text := "" }
        (some 9) emptyTlsCtx { sni := none } none).ssl_events = [] :=
  wssl_keylog_unsupported_aborts _ _ (some 9) emptyTlsCtx { sni := none } none
    3 rfl (Or.inl rfl) rfl rfl rfl rfl

end VquicTls
